import Mathlib

/-
Verification of the metro_CHATBOT dialogue core.

Shallow embedding of the repository's Python sources:
  * app/chatbot_service.py   (field extractors, intent analysis, dialogue state machine)
  * app/classification_service.py (keyword fallback classifier, category policies)
  * app/llm_service.py       (heuristic tool router, per-tool execution loop)

Text is modelled as `List Char`.  Python's regular expressions used by the
field extractors are embedded through a small backtracking regex engine
(`RE` / `reMatch` / `reSearch`) that reproduces `re.search`'s
leftmost-position, greedy-with-backtracking semantics for the exact
patterns appearing in the source.  Fallible Python code (database access
that can raise) is modelled in `Except Unit`.
-/

namespace Metro

/-- ASCII apostrophe, used to build string literals that contain one. -/
def apos : Char := Char.ofNat 39

/-- Join string pieces with an apostrophe between consecutive pieces. -/
def withApos (parts : List String) : List Char :=
  List.intercalate [apos] (parts.map String.data)

/-- Python `str.lower()` (ASCII range, which covers every string the source handles). -/
def pyLower (s : List Char) : List Char := s.map Char.toLower

/-- Python `str.strip()`: remove leading and trailing whitespace. -/
def pyStrip (s : List Char) : List Char :=
  ((s.dropWhile Char.isWhitespace).reverse.dropWhile Char.isWhitespace).reverse

/-- Python `str.split()` with no argument: split on whitespace runs, dropping empty pieces. -/
def pySplit (s : List Char) : List (List Char) :=
  (s.splitOnP Char.isWhitespace).filter (fun w => !w.isEmpty)

/-- Python `str.capitalize()`: first character upper-cased, the rest lower-cased. -/
def pyCapitalize : List Char → List Char
  | [] => []
  | c :: cs => c.toUpper :: cs.map Char.toLower

/-- Python `str.replace(ch, "")`: delete every occurrence of one character. -/
def pyRemoveChar (ch : Char) (s : List Char) : List Char :=
  s.filter (fun c => !(c == ch))

/-- Python `needle in hay` on strings: substring containment. -/
def pyContains (needle : List Char) : List Char → Bool
  | [] => needle.isEmpty
  | c :: cs => needle.isPrefixOf (c :: cs) || pyContains needle cs

/-! ### A small regex engine

Just enough of Python `re` to embed the three patterns of
`chatbot_service.py`: character classes, sequencing, alternation,
exact/at-least counted repetition of a class (greedy), optional class
(greedy), and the word boundary `\b`.  `reMatch` returns the candidate
matches in Python's backtracking priority order; `reSearch` scans start
positions left to right and returns the first match's consumed text,
exactly like `re.search(...).group(0)`. -/

/-- `\w` for ASCII text: letters, digits, underscore. -/
def isWordChar (c : Char) : Bool := c.isAlphanum || c == '_'

def wordOpt : Option Char → Bool
  | none => false
  | some c => isWordChar c

def wordHead : List Char → Bool
  | [] => false
  | c :: _ => isWordChar c

/-- `\b` holds between the previous character and the rest of the input. -/
def atBoundary (prev : Option Char) (s : List Char) : Bool :=
  wordOpt prev != wordHead s

inductive RE where
  | eps
  | cls (p : Char → Bool)
  | seq (a b : RE)
  | alt (a b : RE)
  | rep (n : Nat) (p : Char → Bool)
  | atLeast (n : Nat) (p : Char → Bool)
  | opt (p : Char → Bool)
  | wb

/-- The character preceding the rest of the input after consuming `l` (else `prev`). -/
def lastCharOr (prev : Option Char) (l : List Char) : Option Char :=
  match l.getLast? with
  | some c => some c
  | none => prev

/-- Greedy splits for `p{min,}`: longest prefix of `p`-characters first. -/
def greedySplits (p : Char → Bool) (minLen : Nat) (prev : Option Char) (s : List Char) :
    List (List Char × Option Char × List Char) :=
  let run := s.takeWhile p
  (List.range (run.length + 1)).filterMap (fun i =>
    let k := run.length - i
    if k < minLen then none
    else some (run.take k, lastCharOr prev (run.take k), s.drop k))

/-- `p{n}`: exactly `n` characters of class `p`. -/
def exactChars (p : Char → Bool) (n : Nat) (prev : Option Char) (s : List Char) :
    List (List Char × Option Char × List Char) :=
  let pre := s.take n
  if pre.length == n && pre.all p then [(pre, lastCharOr prev pre, s.drop n)] else []

/-- All ways a regex can match a prefix of `s`, as `(consumed, new prev, rest)`,
in Python's backtracking priority order (greedy, left alternative first). -/
def reMatch : RE → Option Char → List Char → List (List Char × Option Char × List Char)
  | .eps, prev, s => [([], prev, s)]
  | .cls p, _, s =>
    match s with
    | [] => []
    | c :: rest => if p c then [([c], some c, rest)] else []
  | .seq a b, prev, s =>
    (reMatch a prev s).flatMap (fun t =>
      (reMatch b t.2.1 t.2.2).map (fun u => (t.1 ++ u.1, u.2.1, u.2.2)))
  | .alt a b, prev, s => reMatch a prev s ++ reMatch b prev s
  | .rep n p, prev, s => exactChars p n prev s
  | .atLeast n p, prev, s => greedySplits p n prev s
  | .opt p, prev, s =>
    match s with
    | c :: rest => if p c then [([c], some c, rest), ([], prev, s)] else [([], prev, s)]
    | [] => [([], prev, s)]
  | .wb, prev, s => if atBoundary prev s then [([], prev, s)] else []

/-- Scan start positions left to right; at the first position where the regex
matches, return the consumed text of the highest-priority match. -/
def reSearchAux (r : RE) : Option Char → List Char → Option (List Char)
  | prev, [] => (reMatch r prev []).head?.map (fun t => t.1)
  | prev, c :: rest =>
    match (reMatch r prev (c :: rest)).head? with
    | some t => some t.1
    | none => reSearchAux r (some c) rest

/-- Python `re.search(pattern, s)` returning `group(0)`. -/
def reSearch (r : RE) (s : List Char) : Option (List Char) :=
  reSearchAux r none s

end Metro

namespace Metro.ChatbotService

open Metro

/-! ### Field extractors (`app/chatbot_service.py`) -/

/-- `[A-Za-z0-9._%+-]` -/
def emailLocalChar (c : Char) : Bool :=
  c.isAlpha || c.isDigit || c == '.' || c == '_' || c == '%' || c == '+' || c == '-'

/-- `[A-Za-z0-9.-]` -/
def emailDomainChar (c : Char) : Bool :=
  c.isAlpha || c.isDigit || c == '.' || c == '-'

/-- `[A-Z|a-z]` (the source's class literally contains a pipe). -/
def emailTldChar (c : Char) : Bool := c.isAlpha || c == '|'

/-- `\b[A-Za-z0-9._%+-]+@[A-Za-z0-9.-]+\.[A-Z|a-z]{2,}\b` -/
def email_pattern : RE :=
  .seq .wb (.seq (.atLeast 1 emailLocalChar) (.seq (.cls (· == '@'))
    (.seq (.atLeast 1 emailDomainChar) (.seq (.cls (· == '.'))
      (.seq (.atLeast 2 emailTldChar) .wb)))))

/-- `extract_email`: first match of the email pattern, else `None`. -/
def extract_email (text : List Char) : Option (List Char) :=
  reSearch email_pattern text

def digitChar (c : Char) : Bool := c.isDigit

def phoneSep (c : Char) : Bool := c == '-' || c == '.'

/-- `\b\d{10}\b|\b\d{3}[-.]?\d{3}[-.]?\d{4}\b` -/
def phone_pattern : RE :=
  .alt (.seq .wb (.seq (.rep 10 digitChar) .wb))
       (.seq .wb (.seq (.rep 3 digitChar) (.seq (.opt phoneSep)
         (.seq (.rep 3 digitChar) (.seq (.opt phoneSep)
           (.seq (.rep 4 digitChar) .wb))))))

/-- `extract_phone`: first match with `-` and `.` separators stripped, else `None`. -/
def extract_phone (text : List Char) : Option (List Char) :=
  (reSearch phone_pattern text).map (fun m => pyRemoveChar '.' (pyRemoveChar '-' m))

/-- The filler-phrase alternation of `extract_name`'s `re.sub`, in source order:
`my name is |i am |i'm |name is |this is |name:` (case-insensitive). -/
def fillerPhrases : List (List Char) :=
  ["my name is ".data, "i am ".data, withApos ["i", "m "],
   "name is ".data, "this is ".data, "name:".data]

/-- Case-insensitive literal prefix strip: `some rest` when `pat` (ignoring
case) is a prefix of `s`, where `rest` is what follows. -/
def ciStrip : List Char → List Char → Option (List Char)
  | [], s => some s
  | _ :: _, [] => none
  | p :: ps, c :: cs => if p.toLower == c.toLower then ciStrip ps cs else none

/-- First filler phrase (in pattern order) matching at the head of `s`. -/
def firstFiller (s : List Char) : Option (List Char) :=
  fillerPhrases.foldr
    (fun pat acc => match ciStrip pat s with | some r => some r | none => acc) none

/-- `re.sub(filler-alternation, '', text, flags=IGNORECASE)`: scan left to
right, delete each leftmost non-overlapping filler match.  Every filler
phrase is non-empty, so each step consumes at least one character; the fuel
`text.length` therefore never runs out before the text does. -/
def subFillersAux : Nat → List Char → List Char
  | 0, s => s
  | _ + 1, [] => []
  | fuel + 1, c :: cs =>
    match firstFiller (c :: cs) with
    | some rest => subFillersAux fuel rest
    | none => c :: subFillersAux fuel cs

def subFillers (s : List Char) : List Char := subFillersAux s.length s

/-- `extract_name`: strip, remove filler phrases, keep up to the first three
alphabetic words longer than one character, each capitalized; `None` if no
word survives. -/
def extract_name (text : List Char) : Option (List Char) :=
  let t := pyStrip text
  let t2 := subFillers t
  let words := pySplit t2
  let name_words :=
    (words.filter (fun w => decide (w.length > 1) && w.all Char.isAlpha)).map pyCapitalize
  if name_words.isEmpty then none
  else some (List.intercalate " ".data (name_words.take 3))

end Metro.ChatbotService

namespace Metro.ClassificationService

open Metro

/-! ### Keyword fallback classifier (`app/classification_service.py`) -/

def products_keywords : List (List Char) :=
  ["buy".data, "purchase".data, "price".data, "cost".data, "product".data, "solar".data,
   "generator".data, "inverter".data, "panel".data, "battery".data, "equipment".data,
   "specification".data, "specs".data, "model".data, "warranty".data]

def salesman_keywords : List (List Char) :=
  ["sales".data, "salesman".data, "representative".data, "agent".data,
   "quote".data, "deal".data, "discount".data, "order".data, "representative".data]

def employees_keywords : List (List Char) :=
  ["employee".data, "staff".data, "department".data, "position".data,
   "manager".data, "contact".data, "office".data, "team".data]

def technician_keywords : List (List Char) :=
  ["technician".data, "repair".data, "fix".data, "problem".data, "issue".data,
   "fault".data, "broken".data, "not working".data, "maintenance".data,
   "install".data, "installation".data, "service".data]

/-- The confidence map over the four categories (`common, employees, products, salesman`). -/
structure Confidence where
  common : Rat
  employees : Rat
  products : Rat
  salesman : Rat
deriving DecidableEq

/-- Python's `max(scores.items(), key=...)` over the dict built in source order
`products, salesman, employees`: the first maximal entry wins ties. -/
def argmaxCategory (p s e : Nat) : List Char :=
  if p ≥ s then (if p ≥ e then "products".data else "employees".data)
  else (if s ≥ e then "salesman".data else "employees".data)

/-- `_fallback_classify`: keyword counting with a +2 salesman boost for
technician keywords; all-zero scores default to `common` at 0.7; otherwise
scores are normalized by `sum + 0.1` and the arg-max is returned. -/
def _fallback_classify (text : List Char) : (List Char) × Confidence :=
  let text_lower := pyLower text
  let products_score := (products_keywords.filter (fun kw => pyContains kw text_lower)).length
  let salesman_score0 := (salesman_keywords.filter (fun kw => pyContains kw text_lower)).length
  let employees_score := (employees_keywords.filter (fun kw => pyContains kw text_lower)).length
  let salesman_score :=
    if technician_keywords.any (fun kw => pyContains kw text_lower)
    then salesman_score0 + 2 else salesman_score0
  let max_score := max products_score (max salesman_score employees_score)
  if max_score = 0 then
    ("common".data, ⟨7/10, 1/10, 1/10, 1/10⟩)
  else
    let total : Rat := (products_score + salesman_score + employees_score : Nat) + 1/10
    (argmaxCategory products_score salesman_score employees_score,
     ⟨(1/10) / total, (employees_score : Rat) / total,
      (products_score : Rat) / total, (salesman_score : Rat) / total⟩)

/-- Look a category's weight up in the confidence map. -/
def confidence_of (c : Confidence) (cat : List Char) : Rat :=
  if cat = "common".data then c.common
  else if cat = "employees".data then c.employees
  else if cat = "products".data then c.products
  else if cat = "salesman".data then c.salesman
  else 0

/-! ### Category policies (`get_category_info` and friends) -/

structure CategoryConfig where
  fetch_data : Bool
  data_sources : List (List Char)
  response_style : List Char
  max_recommendations : Nat
  description : List Char
deriving DecidableEq

def commonConfig : CategoryConfig :=
  ⟨false, [], "short".data, 0, "General queries, greetings, or simple questions".data⟩

def productsConfig : CategoryConfig :=
  ⟨true, ["search_products".data], "detailed".data, 2,
   "Product-related queries, pricing, specifications".data⟩

def salesmanConfig : CategoryConfig :=
  ⟨true, ["search_salesmen".data, "search_products".data], "detailed".data, 2,
   "Sales inquiries, purchasing assistance, quotes".data⟩

def employeesConfig : CategoryConfig :=
  ⟨true, ["search_employees".data], "detailed".data, 2,
   "Employee information, departments, staff contacts".data⟩

/-- `get_category_info`: dictionary lookup with `common` as the default for
any category outside the configured four. -/
def get_category_info (category : List Char) : CategoryConfig :=
  if category = "common".data then commonConfig
  else if category = "products".data then productsConfig
  else if category = "salesman".data then salesmanConfig
  else if category = "employees".data then employeesConfig
  else commonConfig

def should_fetch_data (category : List Char) : Bool :=
  (get_category_info category).fetch_data

def get_data_sources (category : List Char) : List (List Char) :=
  (get_category_info category).data_sources

def get_response_style (category : List Char) : List Char :=
  (get_category_info category).response_style

def get_max_recommendations (category : List Char) : Nat :=
  (get_category_info category).max_recommendations

end Metro.ClassificationService

namespace Metro.LLMService

open Metro

/-! ### Heuristic tool router (`app/llm_service.py`, `_parse_tool_calls`) -/

def greeting_patterns : List (List Char) :=
  ["hi".data, "hello".data, "hey".data, "good morning".data, "good afternoon".data,
   "good evening".data, "greetings".data, "howdy".data, withApos ["what", "s up"],
   "whats up".data, "sup".data]

def general_questions : List (List Char) :=
  ["how are you".data, "who are you".data, "what can you do".data, "help me".data,
   "what is this".data, "thank you".data, "thanks".data, "bye".data, "goodbye".data]

def knowledge_patterns : List (List Char) :=
  ["how does".data, "how do".data, "what is".data, "what are".data,
   "explain".data, "tell me about".data]

/-- The purchase-language gate on the knowledge-question branch. -/
def knowledge_gate_words : List (List Char) :=
  ["recommend".data, "suggest".data, "need".data, "want".data,
   "price".data, "cost".data, "buy".data]

def problem_keywords : List (List Char) :=
  ["problem".data, "issue".data, "fault".data, "not working".data, "broken".data,
   "repair".data, "fix".data, "diagnose".data, "troubleshoot".data, "error".data,
   "failing".data, "stopped working".data]

def buy_keywords : List (List Char) :=
  ["buy".data, "purchase".data, "price".data, "cost".data, "quote".data,
   "how much".data, "want to buy".data, "looking for".data, "need".data,
   "want".data, "recommend".data, "suggest".data, "shopping for".data]

def product_keywords : List (List Char) :=
  ["solar".data, "generator".data, "inverter".data, "panel".data, "battery".data,
   "product".data, "equipment".data, "system".data]

/-- The category detection shared by the router and `analyze_intent`:
substring match, first of solar/generator/inverter/electrical wins. -/
def pickCategory (lower : List Char) : Option (List Char) :=
  if pyContains "solar".data lower then some "solar".data
  else if pyContains "generator".data lower then some "generator".data
  else if pyContains "inverter".data lower then some "inverter".data
  else if pyContains "electrical".data lower || pyContains "electric".data lower then
    some "electrical".data
  else none

/-- A routed backend lookup, with the parameters the source builds for it.
`search_employees` and `get_user_history` are declared as tools in the
source but `_parse_tool_calls` never emits them. -/
inductive ToolCall where
  | search_products (query : List Char) (category : Option (List Char)) (max_results : Nat)
  | search_technicians (specialty : List Char) (max_results : Nat)
  | search_salesmen (specialty : List Char) (max_results : Nat)
deriving DecidableEq

def ToolCall.isProducts : ToolCall → Bool
  | .search_products _ _ _ => true
  | _ => false

def ToolCall.isTechnicians : ToolCall → Bool
  | .search_technicians _ _ => true
  | _ => false

def ToolCall.isSalesmen : ToolCall → Bool
  | .search_salesmen _ _ => true
  | _ => false

inductive ToolName where
  | search_products
  | search_technicians
  | search_salesmen
deriving DecidableEq

def ToolCall.name : ToolCall → ToolName
  | .search_products _ _ _ => .search_products
  | .search_technicians _ _ => .search_technicians
  | .search_salesmen _ _ => .search_salesmen

/-- `_parse_tool_calls(llm_response, user_message)`: the heuristic routing.
`extractKeywords` stands for `extract_search_keywords`, which calls the
generative-model collaborator; the routing decisions never depend on it.
The `llm_response` argument is unused by the source's logic as well. -/
def _parse_tool_calls (extractKeywords : List Char → List Char)
    (_llm_response user_message : List Char) : List ToolCall :=
  let user_lower := pyStrip (pyLower user_message)
  if greeting_patterns.any (fun p => p.isPrefixOf user_lower)
      || general_questions.any (fun p => pyContains p user_lower)
      || decide ((pySplit user_lower).length ≤ 2) then
    []
  else if knowledge_patterns.any (fun p => pyContains p user_lower)
      && !(knowledge_gate_words.any (fun w => pyContains w user_lower)) then
    []
  else
    let has_problem := problem_keywords.any (fun kw => pyContains kw user_lower)
    let wants_to_buy := buy_keywords.any (fun kw => pyContains kw user_lower)
    let mentions_product := product_keywords.any (fun kw => pyContains kw user_lower)
    let category := pickCategory user_lower
    let problem_calls :=
      if has_problem then [ToolCall.search_technicians (category.getD []) 3] else []
    let buy_calls :=
      if wants_to_buy then
        [ToolCall.search_products (extractKeywords user_message) category 5,
         ToolCall.search_salesmen (category.getD []) 2]
      else if mentions_product && !has_problem then
        [ToolCall.search_products (extractKeywords user_message) category 3]
      else []
    problem_calls ++ buy_calls

/-! ### The per-tool execution loop of `plan_and_execute`
(`app/llm_service.py`, lines 285-297): each routed call is dispatched to the
database executor; an exception from one call is caught and recorded as an
empty result for that tool, and the loop continues.  `fetched_data` is a
Python dict keyed by tool name (insertion ordered, assignment overwrites in
place); the executor is modelled as one function per routed tool, which can
raise (`Except.error`). -/

/-- Python dict assignment `d[k] = v` on an insertion-ordered dict. -/
def dictInsert {β : Type} (k : ToolName) (v : β) :
    List (ToolName × β) → List (ToolName × β)
  | [] => [(k, v)]
  | (k0, v0) :: rest =>
    if k0 = k then (k0, v) :: rest else (k0, v0) :: dictInsert k v rest

/-- Python dict lookup `d.get(k)`. -/
def dictGet {β : Type} (k : ToolName) : List (ToolName × β) → Option β
  | [] => none
  | (k0, v0) :: rest => if k0 = k then some v0 else dictGet k rest

/-- The `try/except` around one dispatched call: the result on success, an
empty list when the call raises. -/
def fetchedValue {β : Type} (executor : ToolCall → Except Unit (List β)) (c : ToolCall) :
    List β :=
  match executor c with
  | .ok r => r
  | .error _ => []

/-- The `for tool_call in tool_calls` loop: execute each call, converting an
exception into an empty result for that tool. -/
def execute_tool_calls {β : Type} (executor : ToolCall → Except Unit (List β)) :
    List ToolCall → List (ToolName × List β) → List (ToolName × List β)
  | [], fetched => fetched
  | c :: cs, fetched =>
    execute_tool_calls executor cs (dictInsert c.name (fetchedValue executor c) fetched)

end Metro.LLMService

namespace Metro.ChatbotService

open Metro

/-! ### Intent analysis and the free-form response generator
(`app/chatbot_service.py`, `analyze_intent` / `generate_technical_response`).
The controller's keyword lists are its own, distinct from the router's. -/

def cb_problem_keywords : List (List Char) :=
  ["problem".data, "issue".data, "fault".data, "not working".data, "broken".data,
   "repair".data, "fix".data, "diagnose".data, "troubleshoot".data]

def cb_buy_keywords : List (List Char) :=
  ["buy".data, "purchase".data, "price".data, "cost".data, "quote".data,
   "how much".data, "want to buy".data]

/-- Category identification in `analyze_intent`: substring match, first of
solar/generator/inverter/electrical wins. -/
def intentCategory (message_lower : List Char) : Option (List Char) :=
  if pyContains "solar".data message_lower then some "solar".data
  else if pyContains "generator".data message_lower then some "generator".data
  else if pyContains "inverter".data message_lower then some "inverter".data
  else if pyContains "electrical".data message_lower
      || pyContains "electric".data message_lower then some "electrical".data
  else none

structure Intent where
  has_problem : Bool
  wants_to_buy : Bool
  category : Option (List Char)
deriving DecidableEq

def analyze_intent (message : List Char) : Intent :=
  let message_lower := pyLower message
  ⟨cb_problem_keywords.any (fun kw => pyContains kw message_lower),
   cb_buy_keywords.any (fun kw => pyContains kw message_lower),
   intentCategory message_lower⟩

/-- A technician/salesman record as returned by the search helpers. -/
structure StaffRec where
  name : List Char
  speciality : List Char
  contact : List Char
deriving DecidableEq

/-- One backend lookup issued by the controller path, with its arguments
(`search_products(query, category)`, `search_technicians(speciality)`,
`search_salesmen(speciality)`). -/
inductive SCall where
  | products (query : List Char) (category : Option (List Char))
  | technicians (speciality : Option (List Char))
  | salesmen (speciality : Option (List Char))
deriving DecidableEq

def SCall.isProducts : SCall → Bool
  | .products _ _ => true
  | _ => false

def SCall.isTechnicians : SCall → Bool
  | .technicians _ => true
  | _ => false

def SCall.isSalesmen : SCall → Bool
  | .salesmen _ => true
  | _ => false

/-- The data collaborator behind `search_products` / `search_technicians` /
`search_salesmen`.  The source wraps each query in `try/finally` with no
`except` clause, so a raised exception (`Except.error`) propagates to the
caller. -/
structure Collab where
  search_products : List Char → Option (List Char) → Except Unit (List (List Char))
  search_technicians : Option (List Char) → Except Unit (List StaffRec)
  search_salesmen : Option (List Char) → Except Unit (List StaffRec)

/-- A collaborator that always succeeds with empty results. -/
def collab0 : Collab := ⟨fun _ _ => .ok [], fun _ => .ok [], fun _ => .ok []⟩

structure Recommends where
  products : List (List Char)
  technicians : List StaffRec
  salesman : List StaffRec
  extra_info : List Char
deriving DecidableEq

def emptyRecommends : Recommends := ⟨[], [], [], []⟩

structure Profile where
  name : Option (List Char)
deriving DecidableEq

/-- The personalized greeting: the profile name (default "there") followed by
a comma and a space when a profile is given, else the empty string. -/
def greetingOf : Option Profile → List Char
  | some p => (p.name.getD "there".data) ++ ", ".data
  | none => []

structure GTResult where
  bot_message : List Char
  recommends : Recommends
  next_steps : List (List Char)
  extra_info : List Char
deriving DecidableEq

def default_next_steps : List (List Char) :=
  ["Ask another question".data, "View products".data, "Start over".data]

def msgProblemSolar (g : List Char) : List Char :=
  g ++ withApos ["I understand you",
    "re having issues with your solar system. Common problems include inverter faults, panel degradation, or wiring issues. I recommend consulting with our specialized technicians."]

def msgProblemGenerator (g : List Char) : List Char :=
  g ++ "Generator issues can range from fuel system problems to electrical faults. Our expert technicians can help diagnose and repair your generator.".data

def msgProblemInverter (g : List Char) : List Char :=
  g ++ "Inverter problems often involve power conversion issues or software glitches. Let me connect you with our inverter specialists.".data

def msgProblemElse (g : List Char) : List Char :=
  g ++ "I can help you troubleshoot your issue. Our technicians are available to diagnose and resolve electrical system problems.".data

def msgBuySolar (g : List Char) : List Char :=
  g ++ "Great! We offer a range of solar systems from 3kW to 50kW. Our solutions include panels, inverters, batteries, and complete installation. Let me recommend some products and connect you with our sales team.".data

def msgBuyGenerator (g : List Char) : List Char :=
  g ++ withApos ["We have various generator options including portable and standby units from 5kW to 500kW. I",
    "ll recommend suitable products and our sales specialists can help you choose."]

def msgBuyInverter (g : List Char) : List Char :=
  g ++ "We stock inverters from leading brands for solar, UPS, and power backup applications. Our sales team can guide you to the perfect solution.".data

def msgBuyElse (g : List Char) : List Char :=
  g ++ "I can help you find the right products for your needs. Let me show you some options and connect you with our sales team.".data

def msgGeneralLoad (g : List Char) : List Char :=
  g ++ "Load calculation is essential for sizing your electrical system. You need to sum up the wattage of all devices, apply diversity factors, and account for surge loads. Would you like me to connect you with a technician for a detailed assessment?".data

def msgGeneralSolar (g : List Char) : List Char :=
  g ++ "Solar systems convert sunlight to electricity using photovoltaic panels. Key components include solar panels, inverters, charge controllers, and batteries. System size depends on your energy needs and available roof space. Would you like product recommendations or technical consultation?".data

def msgGeneralGenerator (g : List Char) : List Char :=
  g ++ "Generators provide backup power during outages. Choose between portable and standby models. Size depends on your power requirements. Key factors include fuel type, runtime, and automatic transfer switches. Need help selecting a generator?".data

def msgGeneralInverter (g : List Char) : List Char :=
  g ++ withApos ["Inverters convert DC power to AC power. Types include pure sine wave, modified sine wave, and grid-tie inverters. Selection depends on your application - solar, UPS, or power backup. What",
    "s your specific need?"]

def msgGeneralElse (g : List Char) : List Char :=
  g ++ withApos ["I",
    "m here to help with solar systems, generators, inverters, and electrical systems. I can assist with load calculations, fault diagnosis, product selection, and technical support. What would you like to know?"]

/-- `generate_technical_response`, instrumented with the ordered trace of the
backend lookups it performs.  Each branch mirrors the source; a collaborator
exception propagates (the source's `try/finally` has no `except`). -/
def generate_technical_response (collab : Collab) (message : List Char)
    (intent : Intent) (user_profile : Option Profile) :
    Except Unit (GTResult × List SCall) :=
  let message_lower := pyLower message
  let greeting := greetingOf user_profile
  if intent.has_problem then
    match collab.search_technicians intent.category with
    | .error e => .error e
    | .ok technicians =>
      let bm_extra : List Char × List Char :=
        if intent.category = some "solar".data then
          (msgProblemSolar greeting,
           "A qualified technician can diagnose and resolve your solar system issues.".data)
        else if intent.category = some "generator".data then
          (msgProblemGenerator greeting,
           "Generator problems should be addressed by experienced technicians for safety.".data)
        else if intent.category = some "inverter".data then
          (msgProblemInverter greeting,
           "Our technicians specialize in inverter troubleshooting and repair.".data)
        else
          (msgProblemElse greeting,
           "Technical support recommended for proper fault diagnosis.".data)
      let next_steps :=
        if technicians.isEmpty then default_next_steps
        else ["Contact technician".data, "Ask another question".data, "Start over".data]
      .ok (⟨bm_extra.1, ⟨[], technicians, [], bm_extra.2⟩, next_steps, bm_extra.2⟩,
           [SCall.technicians intent.category])
  else if intent.wants_to_buy then
    match collab.search_products message intent.category with
    | .error e => .error e
    | .ok products =>
      match collab.search_salesmen intent.category with
      | .error e => .error e
      | .ok salesmen =>
        let bm_extra : List Char × List Char :=
          if intent.category = some "solar".data then
            (msgBuySolar greeting,
             "Our sales staff can provide customized quotes based on your requirements.".data)
          else if intent.category = some "generator".data then
            (msgBuyGenerator greeting,
             "Sales staff can help determine the right generator size for your needs.".data)
          else if intent.category = some "inverter".data then
            (msgBuyInverter greeting,
             "Contact our sales team for pricing and availability.".data)
          else
            (msgBuyElse greeting,
             "Our sales staff can provide detailed product information and quotes.".data)
        let next_steps :=
          if salesmen.isEmpty then default_next_steps
          else ["Contact salesman".data, "View more products".data,
                "Ask another question".data, "Start over".data]
        .ok (⟨bm_extra.1, ⟨products, [], salesmen, bm_extra.2⟩, next_steps, bm_extra.2⟩,
             [SCall.products message intent.category, SCall.salesmen intent.category])
  else
    if pyContains "load calculation".data message_lower then
      match collab.search_technicians (some "electrical".data) with
      | .error e => .error e
      | .ok technicians =>
        let extra := "Professional load calculation ensures proper system sizing.".data
        .ok (⟨msgGeneralLoad greeting, ⟨[], technicians, [], extra⟩, default_next_steps, extra⟩,
             [SCall.technicians (some "electrical".data)])
    else if pyContains "solar".data message_lower then
      match collab.search_products "solar".data (some "solar".data) with
      | .error e => .error e
      | .ok products =>
        match collab.search_salesmen (some "solar".data) with
        | .error e => .error e
        | .ok salesmen =>
          let extra := "Solar systems can significantly reduce electricity costs.".data
          .ok (⟨msgGeneralSolar greeting, ⟨products, [], salesmen, extra⟩, default_next_steps, extra⟩,
               [SCall.products "solar".data (some "solar".data),
                SCall.salesmen (some "solar".data)])
    else if pyContains "generator".data message_lower then
      match collab.search_products "generator".data (some "generator".data) with
      | .error e => .error e
      | .ok products =>
        match collab.search_salesmen (some "generator".data) with
        | .error e => .error e
        | .ok salesmen =>
          let extra := "Proper generator sizing is crucial for reliable backup power.".data
          .ok (⟨msgGeneralGenerator greeting, ⟨products, [], salesmen, extra⟩, default_next_steps, extra⟩,
               [SCall.products "generator".data (some "generator".data),
                SCall.salesmen (some "generator".data)])
    else if pyContains "inverter".data message_lower then
      match collab.search_products "inverter".data (some "inverter".data) with
      | .error e => .error e
      | .ok products =>
        match collab.search_salesmen (some "inverter".data) with
        | .error e => .error e
        | .ok salesmen =>
          let extra := "Inverter selection depends on power requirements and application.".data
          .ok (⟨msgGeneralInverter greeting, ⟨products, [], salesmen, extra⟩, default_next_steps, extra⟩,
               [SCall.products "inverter".data (some "inverter".data),
                SCall.salesmen (some "inverter".data)])
    else
      .ok (⟨msgGeneralElse greeting, ⟨[], [], [], []⟩,
            ["Ask about solar".data, "Ask about generators".data,
             "Ask about inverters".data, "Start over".data], []⟩, [])

/-! ### The dialogue state machine (`process_message`) -/

inductive ChatState where
  | start
  | waiting_option
  | ask_questions
  | create_account_email
  | create_account_name
  | create_account_mobile
  | login_email
  | active_chat
deriving DecidableEq

/-- The partially-collected registration fields in `temp_data`. -/
structure TempData where
  email : Option (List Char)
  name : Option (List Char)
deriving DecidableEq

/-- The session dictionary: `state`, `temp_data`, and the identity keys
`user_email` / `user_name` (absent = `none`). -/
structure Session where
  state : ChatState
  temp_data : TempData
  user_email : Option (List Char)
  user_name : Option (List Char)
deriving DecidableEq

/-- The session `process_message` builds when called without one. -/
def freshSession : Session := ⟨.start, ⟨none, none⟩, none, none⟩

/-- A persisted user row (`User(email, name, mobile_number)`). -/
structure UserRec where
  email : List Char
  name : List Char
  mobile_number : List Char
deriving DecidableEq

/-- `get_user`: first user whose email matches. -/
def get_user (db : List UserRec) (email : List Char) : Option UserRec :=
  db.find? (fun u => u.email == email)

def option1_synonyms : List (List Char) :=
  ["1".data, "1)".data, "option 1".data, "ask questions".data, "ask some questions".data]

def option2_synonyms : List (List Char) :=
  ["2".data, "2)".data, "option 2".data, "create account".data, "create an account".data]

def option3_synonyms : List (List Char) :=
  ["3".data, "3)".data, "option 3".data, "log in".data, "login".data]

def menu_message : List Char :=
  "Hello there,\n1) Ask some questions\n2) Create an account\n3) Log in".data

def menu_reprompt : List Char :=
  "Please choose a valid option:\n1) Ask some questions\n2) Create an account\n3) Log in".data

def option_next_steps : List (List Char) :=
  ["Option 1".data, "Option 2".data, "Option 3".data]

def ask_questions_message : List Char := "Ask your questions.".data

def ask_questions_next : List (List Char) :=
  ["Ask about solar".data, "Ask about generators".data,
   "Ask about inverters".data, "Ask about electrical systems".data]

def create_account_intro : List Char :=
  withApos ["Let", "s create an account for you.\n\nPlease enter your email:"]

def login_intro : List Char := "Please enter your email to log in:".data

def email_reprompt : List Char :=
  withApos ["I couldn", "t find a valid email. Please enter your email address:"]

def already_registered_message (name : List Char) : List Char :=
  "This email is already registered. Welcome back, ".data ++ name
    ++ "!\n\nHow can I help you?".data

def post_login_next : List (List Char) :=
  ["Ask a question".data, "View products".data, "Contact support".data]

def ask_name_message : List Char := "Great! Now, please enter your name:".data

def name_reprompt : List Char := "Please enter your name:".data

def ask_mobile_message (name : List Char) : List Char :=
  "Nice to meet you, ".data ++ name ++ "! Please enter your mobile number:".data

def account_created_message (name : List Char) : List Char :=
  name ++ ", your account has been created! How can I help you?".data

def mobile_reprompt : List Char :=
  "Please enter a valid mobile number (10 digits):".data

def welcome_back_message (name : List Char) : List Char :=
  "Welcome back ".data ++ name ++ ", how can I help you?".data

def no_account_message : List Char :=
  "No account found with that email. Would you like to create an account?\n\n1) Yes, create account\n2) Try different email".data

def no_account_next : List (List Char) :=
  ["Create account".data, "Try again".data]

def login_email_reprompt : List Char :=
  "Please enter a valid email address:".data

/-- One turn's observable outcome: the response fields, the updated session,
the updated user table, the users created this turn, the backend lookups
issued, and the email a chat-history write was attempted for (if any). -/
structure TurnOutput where
  bot_message : List Char
  recommends : Recommends
  next_step : List (List Char)
  session : Session
  db : List UserRec
  created_users : List UserRec
  calls : List SCall
  saved_history_email : Option (List Char)
deriving DecidableEq

/-- `process_message`: one turn of the dialogue controller.  `Except.error`
models an uncaught Python exception escaping the turn (a raising data-source
lookup, or the `KeyError` of reading a missing `temp_data` key). -/
def process_message (collab : Collab) (db : List UserRec) (user_message : List Char)
    (session_state : Option Session) (user_profile : Option Profile) :
    Except Unit TurnOutput :=
  let s := session_state.getD freshSession
  match s.state with
  | .start =>
    .ok ⟨menu_message, emptyRecommends, option_next_steps,
         { s with state := .waiting_option }, db, [], [], none⟩
  | .waiting_option =>
    let choice := pyStrip user_message
    if choice ∈ option1_synonyms then
      .ok ⟨ask_questions_message, emptyRecommends, ask_questions_next,
           { s with state := .ask_questions }, db, [], [], none⟩
    else if choice ∈ option2_synonyms then
      .ok ⟨create_account_intro, emptyRecommends, [],
           { s with state := .create_account_email }, db, [], [], none⟩
    else if choice ∈ option3_synonyms then
      .ok ⟨login_intro, emptyRecommends, [],
           { s with state := .login_email }, db, [], [], none⟩
    else
      .ok ⟨menu_reprompt, emptyRecommends, option_next_steps, s, db, [], [], none⟩
  | .ask_questions =>
    match generate_technical_response collab user_message
        (analyze_intent user_message) user_profile with
    | .error e => .error e
    | .ok (g, cs) =>
      .ok ⟨g.bot_message, g.recommends, g.next_steps, s, db, [], cs, none⟩
  | .create_account_email =>
    match extract_email user_message with
    | some email =>
      match get_user db email with
      | some existing =>
        .ok ⟨already_registered_message existing.name, emptyRecommends, post_login_next,
             { s with state := .active_chat, user_email := some email,
                      user_name := some existing.name },
             db, [], [], none⟩
      | none =>
        .ok ⟨ask_name_message, emptyRecommends, [],
             { s with state := .create_account_name,
                      temp_data := { s.temp_data with email := some email } },
             db, [], [], none⟩
    | none =>
      .ok ⟨email_reprompt, emptyRecommends, [], s, db, [], [], none⟩
  | .create_account_name =>
    match extract_name user_message with
    | some name =>
      .ok ⟨ask_mobile_message name, emptyRecommends, [],
           { s with state := .create_account_mobile,
                    temp_data := { s.temp_data with name := some name } },
           db, [], [], none⟩
    | none => .ok ⟨name_reprompt, emptyRecommends, [], s, db, [], [], none⟩
  | .create_account_mobile =>
    match extract_phone user_message with
    | some phone =>
      match s.temp_data.email, s.temp_data.name with
      | some email, some name =>
        .ok ⟨account_created_message name, emptyRecommends, post_login_next,
             { s with state := .active_chat, user_email := some email,
                      user_name := some name, temp_data := ⟨none, none⟩ },
             db ++ [⟨email, name, phone⟩], [⟨email, name, phone⟩], [], none⟩
      | _, _ => .error ()
    | none => .ok ⟨mobile_reprompt, emptyRecommends, [], s, db, [], [], none⟩
  | .login_email =>
    match extract_email user_message with
    | some email =>
      match get_user db email with
      | some user =>
        .ok ⟨welcome_back_message user.name, emptyRecommends, post_login_next,
             { s with state := .active_chat, user_email := some email,
                      user_name := some user.name },
             db, [], [], none⟩
      | none =>
        .ok ⟨no_account_message, emptyRecommends, no_account_next,
             { s with state := .waiting_option }, db, [], [], none⟩
    | none => .ok ⟨login_email_reprompt, emptyRecommends, [], s, db, [], [], none⟩
  | .active_chat =>
    let user_name := s.user_name.getD []
    let profile : Option Profile :=
      if user_name.isEmpty then none else some ⟨some user_name⟩
    match generate_technical_response collab user_message
        (analyze_intent user_message) profile with
    | .error e => .error e
    | .ok (g, cs) =>
      .ok ⟨g.bot_message, g.recommends, g.next_steps, s, db, [], cs, s.user_email⟩

/-- A session reachable from a fresh start by successful `process_message`
turns, with arbitrary collaborators, user tables and profiles each turn. -/
inductive ReachableSession : Session → Prop where
  | init (collab : Collab) (db : List UserRec) (msg : List Char)
      (profile : Option Profile) (out : TurnOutput) :
      process_message collab db msg none profile = .ok out →
      ReachableSession out.session
  | step (s : Session) (collab : Collab) (db : List UserRec) (msg : List Char)
      (profile : Option Profile) (out : TurnOutput) :
      ReachableSession s →
      process_message collab db msg (some s) profile = .ok out →
      ReachableSession out.session

end Metro.ChatbotService

namespace Metro.ChatbotService

/-- The reprompt message each data-collection state answers an extraction
miss with (`[]` for states that are not data-collection states). -/
def extraction_miss_reprompt : ChatState → List Char
  | .create_account_email => email_reprompt
  | .create_account_name => name_reprompt
  | .create_account_mobile => mobile_reprompt
  | .login_email => login_email_reprompt
  | _ => []

/-- A collaborator whose product search raises while the other searches
succeed (the salesman search with a non-empty result). -/
def collabProductsFail : Collab :=
  ⟨fun _ _ => .error (),
   fun _ => .ok [],
   fun _ => .ok [⟨"Sam".data, "solar".data, "0770000000".data⟩]⟩

/-- A session sitting in the free-form `ask_questions` state. -/
def askQuestionsSession : Session := ⟨.ask_questions, ⟨none, none⟩, none, none⟩

end Metro.ChatbotService

namespace Metro.LLMService

/-- An executor whose product search raises while technician and salesman
searches succeed. -/
def executorProductsFail : ToolCall → Except Unit (List (List Char))
  | .search_products _ _ _ => .error ()
  | .search_technicians _ _ => .ok ["Tina".data]
  | .search_salesmen _ _ => .ok ["Sam".data]

/-- A concrete routed call list with one failing and one succeeding source. -/
def mixedCalls : List ToolCall :=
  [ToolCall.search_products "10kW solar system".data (some "solar".data) 5,
   ToolCall.search_salesmen "solar".data 2]

end Metro.LLMService


namespace Metro

open Metro.ChatbotService Metro.ClassificationService Metro.LLMService

/-! ## Claim theorems -/

/-- C7: the field extractors satisfy the concrete equalities
`extract_phone "555.123.4567" = "5551234567"` (separators stripped),
`extract_email "contact me at a.b@co.io please" = "a.b@co.io"`, and
`extract_name "my name is john smith" = "John Smith"`; and each extractor
returns an absence signal (`none`, never an exception) when nothing matches. -/
theorem c7_field_extractors :
    extract_phone "555.123.4567".data = some "5551234567".data ∧
    extract_email "contact me at a.b@co.io please".data = some "a.b@co.io".data ∧
    extract_name "my name is john smith".data = some "John Smith".data ∧
    extract_email "no address here".data = none ∧
    extract_phone "call me maybe".data = none ∧
    extract_name "1 2 3".data = none := by
  refine ⟨?_, ?_, ?_, ?_, ?_, ?_⟩ <;> decide

/-- C6: with no trained model loaded, classification falls back to
`_fallback_classify`, and on "I want to buy a solar panel" it predicts
"products" or "salesman" with the predicted category's confidence strictly
above both the "employees" and the "common" weight. -/
theorem c6_fallback_classify_buy_solar_panel :
    ((_fallback_classify "I want to buy a solar panel".data).1 = "products".data ∨
      (_fallback_classify "I want to buy a solar panel".data).1 = "salesman".data) ∧
    confidence_of (_fallback_classify "I want to buy a solar panel".data).2
        (_fallback_classify "I want to buy a solar panel".data).1 >
      (_fallback_classify "I want to buy a solar panel".data).2.employees ∧
    confidence_of (_fallback_classify "I want to buy a solar panel".data).2
        (_fallback_classify "I want to buy a solar panel".data).1 >
      (_fallback_classify "I want to buy a solar panel".data).2.common := by
  have hp : (products_keywords.filter
      (fun kw => pyContains kw (pyLower "I want to buy a solar panel".data))).length = 3 := by
    decide
  have hs : (salesman_keywords.filter
      (fun kw => pyContains kw (pyLower "I want to buy a solar panel".data))).length = 0 := by
    decide
  have he : (employees_keywords.filter
      (fun kw => pyContains kw (pyLower "I want to buy a solar panel".data))).length = 0 := by
    decide
  have ht : (technician_keywords.any
      (fun kw => pyContains kw (pyLower "I want to buy a solar panel".data))) = false := by
    decide
  simp only [_fallback_classify, hp, hs, he, ht, if_false, Bool.false_eq_true]
  norm_num [argmaxCategory, confidence_of]
  rw [if_neg (by decide)]
  norm_num

/-- C10: `get_category_info` is total: any category string outside the
configured set maps to the `common` policy, so `should_fetch_data` is
`false`, `get_data_sources` is empty and `get_max_recommendations` is `0`
for every unknown category. -/
theorem c10_unknown_category_common_policy :
    ∀ category : List Char,
      category ∉ ["common".data, "employees".data, "products".data, "salesman".data] →
      get_category_info category = commonConfig ∧
      should_fetch_data category = false ∧
      get_data_sources category = [] ∧
      get_max_recommendations category = 0 := by
  intro c hc
  simp only [List.mem_cons, List.not_mem_nil, or_false, not_or] at hc
  obtain ⟨h1, h2, h3, h4⟩ := hc
  have hg : get_category_info c = commonConfig := by
    unfold get_category_info
    rw [if_neg h1, if_neg h3, if_neg h4, if_neg h2]
  refine ⟨hg, ?_, ?_, ?_⟩
  · unfold should_fetch_data; rw [hg]; rfl
  · unfold get_data_sources; rw [hg]; rfl
  · unfold get_max_recommendations; rw [hg]; rfl

/-- The three synonym sets are pairwise disjoint. -/
theorem option_synonyms_disjoint :
    (∀ x ∈ option2_synonyms, x ∉ option1_synonyms) ∧
    (∀ x ∈ option3_synonyms, x ∉ option1_synonyms) ∧
    (∀ x ∈ option3_synonyms, x ∉ option2_synonyms) := by
  refine ⟨?_, ?_, ?_⟩ <;> (intro x hx; fin_cases hx <;> decide)

/-- C2: in `WAITING_OPTION`, every synonym of a branch transitions the
session to that branch's successor state (with the branch's message), and
any stripped input outside all three synonym sets re-shows the menu and
leaves the session unchanged. -/
theorem c2_waiting_option_transitions :
    ∀ (collab : Collab) (db : List UserRec) (profile : Option Profile)
      (s : Session) (msg : List Char),
      s.state = .waiting_option →
      (pyStrip msg ∈ option1_synonyms →
        process_message collab db msg (some s) profile =
          .ok ⟨ask_questions_message, emptyRecommends, ask_questions_next,
               { s with state := .ask_questions }, db, [], [], none⟩) ∧
      (pyStrip msg ∈ option2_synonyms →
        process_message collab db msg (some s) profile =
          .ok ⟨create_account_intro, emptyRecommends, [],
               { s with state := .create_account_email }, db, [], [], none⟩) ∧
      (pyStrip msg ∈ option3_synonyms →
        process_message collab db msg (some s) profile =
          .ok ⟨login_intro, emptyRecommends, [],
               { s with state := .login_email }, db, [], [], none⟩) ∧
      (pyStrip msg ∉ option1_synonyms → pyStrip msg ∉ option2_synonyms →
        pyStrip msg ∉ option3_synonyms →
        process_message collab db msg (some s) profile =
          .ok ⟨menu_reprompt, emptyRecommends, option_next_steps, s, db, [], [], none⟩) := by
  intro collab db profile s msg hs
  obtain ⟨st, td, ue, un⟩ := s
  replace hs : st = ChatState.waiting_option := hs
  subst hs
  refine ⟨?_, ?_, ?_, ?_⟩
  · intro h1
    simp only [process_message, Option.getD_some]
    rw [if_pos h1]
  · intro h2
    simp only [process_message, Option.getD_some]
    rw [if_neg (option_synonyms_disjoint.1 _ h2), if_pos h2]
  · intro h3
    simp only [process_message, Option.getD_some]
    rw [if_neg (option_synonyms_disjoint.2.1 _ h3),
        if_neg (option_synonyms_disjoint.2.2 _ h3), if_pos h3]
  · intro h1 h2 h3
    simp only [process_message, Option.getD_some]
    rw [if_neg h1, if_neg h2, if_neg h3]

/-- Witness for C2: the inputs "ask some questions", "2", "log in" and
"blah" from `WAITING_OPTION`. -/
theorem c2_witness :
    process_message collab0 [] "ask some questions".data
        (some ⟨.waiting_option, ⟨none, none⟩, none, none⟩) none =
      .ok ⟨ask_questions_message, emptyRecommends, ask_questions_next,
           ⟨.ask_questions, ⟨none, none⟩, none, none⟩, [], [], [], none⟩ ∧
    process_message collab0 [] "2".data
        (some ⟨.waiting_option, ⟨none, none⟩, none, none⟩) none =
      .ok ⟨create_account_intro, emptyRecommends, [],
           ⟨.create_account_email, ⟨none, none⟩, none, none⟩, [], [], [], none⟩ ∧
    process_message collab0 [] "log in".data
        (some ⟨.waiting_option, ⟨none, none⟩, none, none⟩) none =
      .ok ⟨login_intro, emptyRecommends, [],
           ⟨.login_email, ⟨none, none⟩, none, none⟩, [], [], [], none⟩ ∧
    process_message collab0 [] "blah".data
        (some ⟨.waiting_option, ⟨none, none⟩, none, none⟩) none =
      .ok ⟨menu_reprompt, emptyRecommends, option_next_steps,
           ⟨.waiting_option, ⟨none, none⟩, none, none⟩, [], [], [], none⟩ :=
  ⟨(c2_waiting_option_transitions collab0 [] none _ _ rfl).1 (by decide),
   (c2_waiting_option_transitions collab0 [] none _ _ rfl).2.1 (by decide),
   (c2_waiting_option_transitions collab0 [] none _ _ rfl).2.2.1 (by decide),
   (c2_waiting_option_transitions collab0 [] none _ _ rfl).2.2.2
     (by decide) (by decide) (by decide)⟩

/-- C3: in `CREATE_ACCOUNT_EMAIL`, an email that is already on file logs the
caller straight in: the session moves to `ACTIVE_CHAT` with `user_email` the
submitted email and `user_name` the stored name, the user table is unchanged
and no user is created. -/
theorem c3_existing_email_no_duplicate :
    ∀ (collab : Collab) (db : List UserRec) (profile : Option Profile)
      (s : Session) (msg email : List Char) (existing : UserRec),
      s.state = .create_account_email →
      extract_email msg = some email →
      get_user db email = some existing →
      process_message collab db msg (some s) profile =
        .ok ⟨already_registered_message existing.name, emptyRecommends, post_login_next,
             { s with state := .active_chat, user_email := some email,
                      user_name := some existing.name },
             db, [], [], none⟩ := by
  intro collab db profile s msg email existing hs hext hget
  obtain ⟨st, td, ue, un⟩ := s
  replace hs : st = ChatState.create_account_email := hs
  subst hs
  simp only [process_message, Option.getD_some, hext, hget]

/-- Witness for C3 at a one-user table and the message "a@b.io". -/
theorem c3_witness :
    process_message collab0 [⟨"a@b.io".data, "Alice".data, "5551234567".data⟩]
        "a@b.io".data (some ⟨.create_account_email, ⟨none, none⟩, none, none⟩) none =
      .ok ⟨already_registered_message "Alice".data, emptyRecommends, post_login_next,
           ⟨.active_chat, ⟨none, none⟩, some "a@b.io".data, some "Alice".data⟩,
           [⟨"a@b.io".data, "Alice".data, "5551234567".data⟩], [], [], none⟩ :=
  c3_existing_email_no_duplicate collab0
    [⟨"a@b.io".data, "Alice".data, "5551234567".data⟩] none
    ⟨.create_account_email, ⟨none, none⟩, none, none⟩ "a@b.io".data "a@b.io".data
    ⟨"a@b.io".data, "Alice".data, "5551234567".data⟩ rfl (by decide) (by decide)

/-- C8: in each data-collection state, an extraction miss yields the state's
reprompt message and returns the session unchanged (same state, same
`temp_data`, same identity fields). -/
theorem c8_extraction_miss_reprompt :
    ∀ (collab : Collab) (db : List UserRec) (profile : Option Profile)
      (s : Session) (msg : List Char),
      ((s.state = .create_account_email ∧ extract_email msg = none) ∨
       (s.state = .create_account_name ∧ extract_name msg = none) ∨
       (s.state = .create_account_mobile ∧ extract_phone msg = none) ∨
       (s.state = .login_email ∧ extract_email msg = none)) →
      process_message collab db msg (some s) profile =
        .ok ⟨extraction_miss_reprompt s.state, emptyRecommends, [], s, db, [], [], none⟩ := by
  intro collab db profile s msg hmiss
  obtain ⟨st, td, ue, un⟩ := s
  rcases hmiss with ⟨hs, hext⟩ | ⟨hs, hext⟩ | ⟨hs, hext⟩ | ⟨hs, hext⟩ <;>
    (replace hs : st = _ := hs; subst hs;
     simp only [process_message, Option.getD_some, hext, extraction_miss_reprompt])

/-- Witness for C8: the message "nothing usable here 1" misses all four
extractors; from `LOGIN_EMAIL` the turn reprompts without touching the session. -/
theorem c8_witness :
    process_message collab0 [] "nothing usable here 1".data
        (some ⟨.login_email, ⟨some "x@y.io".data, none⟩, none, none⟩) none =
      .ok ⟨extraction_miss_reprompt ChatState.login_email, emptyRecommends, [],
           ⟨.login_email, ⟨some "x@y.io".data, none⟩, none, none⟩, [], [], [], none⟩ :=
  c8_extraction_miss_reprompt collab0 [] none _ _ (Or.inr (Or.inr (Or.inr ⟨rfl, by decide⟩)))

/-- C9: greeting detection in `_parse_tool_calls` is a prefix test on the
lower-cased (and stripped) message, so any message starting with a greeting
token is routed to zero tool calls — including "high voltage fault in my
generator", which starts with "hi" and gets no technician lookup despite
containing the problem keyword "fault". -/
theorem c9_greeting_prefix_zero_calls :
    (∀ (ek : List Char → List Char) (lr msg p : List Char),
        p ∈ greeting_patterns →
        p.isPrefixOf (pyStrip (pyLower msg)) = true →
        _parse_tool_calls ek lr msg = []) ∧
    (∀ ek lr, _parse_tool_calls ek lr "high voltage fault in my generator".data = []) := by
  constructor
  · intro ek lr msg p hp hpref
    have hany : greeting_patterns.any (fun q => q.isPrefixOf (pyStrip (pyLower msg))) = true :=
      List.any_eq_true.mpr ⟨p, hp, hpref⟩
    simp [_parse_tool_calls, hany]
  · intro ek lr
    rfl

/-- Witness for C9 at the message "high voltage fault in my generator" and
the greeting token "hi". -/
theorem c9_witness :
    _parse_tool_calls (fun w => w) [] "high voltage fault in my generator".data = [] :=
  c9_greeting_prefix_zero_calls.1 (fun w => w) [] "high voltage fault in my generator".data
    "hi".data (by decide) (by decide)

/-- C4 counterexample: on the controller's intent path,
`generate_technical_response` on "what is solar?" issues a product lookup
and a salesman lookup (the general-solar branch), so the claim that every
routing mode issues zero backend lookups for "what is solar?" is false. -/
theorem c4_counterexample :
    (generate_technical_response collab0 "what is solar?".data
        (analyze_intent "what is solar?".data) none).map Prod.snd =
      .ok [SCall.products "solar".data (some "solar".data),
           SCall.salesmen (some "solar".data)] ∧
    (generate_technical_response collab0 "what is solar?".data
        (analyze_intent "what is solar?".data) none).map Prod.snd ≠ .ok [] := by
  have h1 : (generate_technical_response collab0 "what is solar?".data
      (analyze_intent "what is solar?".data) none).map Prod.snd =
        .ok [SCall.products "solar".data (some "solar".data),
             SCall.salesmen (some "solar".data)] := rfl
  refine ⟨h1, ?_⟩
  rw [h1]
  simp

/-- C4 amended: the heuristic router `_parse_tool_calls` issues zero calls
for "hi", "thanks" and "what is solar?", at least a technician call for
"my generator is broken", and a product plus a salesman call for
"I want to buy a 10kW solar system"; the controller's intent path
(`generate_technical_response` with `analyze_intent`) behaves the same on
those messages except that "what is solar?" issues a product and a salesman
lookup there. -/
theorem c4_routing_amended :
    (∀ ek lr, _parse_tool_calls ek lr "hi".data = []) ∧
    (∀ ek lr, _parse_tool_calls ek lr "thanks".data = []) ∧
    (∀ ek lr, _parse_tool_calls ek lr "what is solar?".data = []) ∧
    (∀ ek lr, (_parse_tool_calls ek lr "my generator is broken".data).any
        ToolCall.isTechnicians = true) ∧
    (∀ ek lr, (_parse_tool_calls ek lr "I want to buy a 10kW solar system".data).any
          ToolCall.isProducts = true ∧
        (_parse_tool_calls ek lr "I want to buy a 10kW solar system".data).any
          ToolCall.isSalesmen = true) ∧
    (generate_technical_response collab0 "hi".data
        (analyze_intent "hi".data) none).map Prod.snd = .ok [] ∧
    (generate_technical_response collab0 "thanks".data
        (analyze_intent "thanks".data) none).map Prod.snd = .ok [] ∧
    (generate_technical_response collab0 "my generator is broken".data
        (analyze_intent "my generator is broken".data) none).map Prod.snd =
      .ok [SCall.technicians (some "generator".data)] ∧
    (generate_technical_response collab0 "I want to buy a 10kW solar system".data
        (analyze_intent "I want to buy a 10kW solar system".data) none).map Prod.snd =
      .ok [SCall.products "I want to buy a 10kW solar system".data (some "solar".data),
           SCall.salesmen (some "solar".data)] ∧
    (generate_technical_response collab0 "what is solar?".data
        (analyze_intent "what is solar?".data) none).map Prod.snd =
      .ok [SCall.products "solar".data (some "solar".data),
           SCall.salesmen (some "solar".data)] :=
  ⟨fun _ _ => rfl, fun _ _ => rfl, fun _ _ => rfl, fun _ _ => rfl,
   fun _ _ => ⟨rfl, rfl⟩, rfl, rfl, rfl, rfl, rfl⟩

/-- Looking up the key just inserted. -/
theorem dictGet_dictInsert_self {β : Type} (k : ToolName) (v : β)
    (d : List (ToolName × β)) : dictGet k (dictInsert k v d) = some v := by
  induction d with
  | nil => simp [dictInsert, dictGet]
  | cons kv rest ih =>
    obtain ⟨k0, v0⟩ := kv
    by_cases h : k0 = k
    · subst h
      simp [dictInsert, dictGet]
    · simp [dictInsert, dictGet, h, ih]

/-- Inserting under a different key does not change a lookup. -/
theorem dictGet_dictInsert_ne {β : Type} (q k : ToolName) (v : β)
    (d : List (ToolName × β)) (h : q ≠ k) :
    dictGet q (dictInsert k v d) = dictGet q d := by
  induction d with
  | nil => simp [dictInsert, dictGet, Ne.symm h]
  | cons kv rest ih =>
    obtain ⟨k0, v0⟩ := kv
    by_cases hk : k0 = k
    · subst hk
      simp [dictInsert, dictGet, Ne.symm h]
    · by_cases hq : k0 = q
      · subst hq
        simp [dictInsert, dictGet, hk]
      · simp [dictInsert, dictGet, hk, hq, ih]

/-- The execution loop leaves entries of tools it never dispatches alone. -/
theorem execute_tool_calls_preserves {β : Type}
    (executor : ToolCall → Except Unit (List β)) (cs : List ToolCall)
    (fetched : List (ToolName × List β)) (q : ToolName)
    (h : ∀ c ∈ cs, ToolCall.name c ≠ q) :
    dictGet q (execute_tool_calls executor cs fetched) = dictGet q fetched := by
  induction cs generalizing fetched with
  | nil => rfl
  | cons c cs' ih =>
    rw [execute_tool_calls,
        ih _ (fun c' hc' => h c' (List.mem_cons_of_mem _ hc')),
        dictGet_dictInsert_ne _ _ _ _
          (fun hq => h c (List.mem_cons_self _ _) hq.symm)]

/-- With distinct tool names, every routed call ends up with exactly its own
executor result in `fetched_data` (errors converted to the empty list). -/
theorem dictGet_execute_tool_calls {β : Type}
    (executor : ToolCall → Except Unit (List β)) (calls : List ToolCall)
    (c : ToolCall) (hnodup : (calls.map ToolCall.name).Nodup) (hmem : c ∈ calls)
    (fetched : List (ToolName × List β)) :
    dictGet c.name (execute_tool_calls executor calls fetched) =
      some (fetchedValue executor c) := by
  induction calls generalizing fetched with
  | nil => cases hmem
  | cons c0 cs' ih =>
    rw [List.map_cons, List.nodup_cons] at hnodup
    rcases List.mem_cons.mp hmem with rfl | hmem'
    · rw [execute_tool_calls,
          execute_tool_calls_preserves executor cs' _ c.name
            (fun c' hc' heq => hnodup.1 (heq ▸ List.mem_map_of_mem ToolCall.name hc')),
          dictGet_dictInsert_self]
    · exact ih hnodup.2 hmem' _

/-- C5 amended: in the LLM routing path, the per-tool execution loop of
`plan_and_execute` records an empty entry for a call whose lookup raises and
the exact result for every call whose lookup succeeds — one failing source
never aborts that loop.  In the controller path, however, an exception from
a data-source lookup inside `generate_technical_response` propagates out of
`process_message` and aborts the turn (the HTTP layer then answers with a
generic apology whose recommendation lists are all empty). -/
theorem c5_resilience_amended :
    (∀ (β : Type) (executor : ToolCall → Except Unit (List β)) (calls : List ToolCall)
        (c : ToolCall),
        (calls.map ToolCall.name).Nodup → c ∈ calls → executor c = .error () →
        dictGet c.name (execute_tool_calls executor calls []) = some []) ∧
    (∀ (β : Type) (executor : ToolCall → Except Unit (List β)) (calls : List ToolCall)
        (c : ToolCall) (r : List β),
        (calls.map ToolCall.name).Nodup → c ∈ calls → executor c = .ok r →
        dictGet c.name (execute_tool_calls executor calls []) = some r) ∧
    (∀ (collab : Collab) (db : List UserRec) (msg : List Char) (s : Session)
        (profile : Option Profile),
        s.state = .ask_questions →
        generate_technical_response collab msg (analyze_intent msg) profile = .error () →
        process_message collab db msg (some s) profile = .error ()) := by
  refine ⟨?_, ?_, ?_⟩
  · intro β executor calls c hnodup hmem herr
    rw [dictGet_execute_tool_calls executor calls c hnodup hmem]
    simp only [fetchedValue, herr]
  · intro β executor calls c r hnodup hmem hokc
    rw [dictGet_execute_tool_calls executor calls c hnodup hmem]
    simp only [fetchedValue, hokc]
  · intro collab db msg s profile hs hgtr
    obtain ⟨st, td, ue, un⟩ := s
    replace hs : st = ChatState.ask_questions := hs
    subst hs
    simp only [process_message, Option.getD_some, hgtr]

/-- Witness for C5: at the concrete call list `mixedCalls` and the executor
whose product search raises, the loop records an empty products entry and
the salesman result; the controller turn on a buy message aborts. -/
theorem c5_witness :
    dictGet (ToolCall.search_products "10kW solar system".data (some "solar".data) 5).name
        (execute_tool_calls executorProductsFail mixedCalls []) = some [] ∧
    dictGet (ToolCall.search_salesmen "solar".data 2).name
        (execute_tool_calls executorProductsFail mixedCalls []) = some ["Sam".data] ∧
    process_message collabProductsFail [] "I want to buy a 10kW solar system".data
        (some askQuestionsSession) none = .error () :=
  ⟨c5_resilience_amended.1 (List Char) executorProductsFail mixedCalls
      (ToolCall.search_products "10kW solar system".data (some "solar".data) 5)
      (by decide) (by decide) rfl,
   c5_resilience_amended.2.1 (List Char) executorProductsFail mixedCalls
      (ToolCall.search_salesmen "solar".data 2) ["Sam".data]
      (by decide) (by decide) rfl,
   c5_resilience_amended.2.2 collabProductsFail [] "I want to buy a 10kW solar system".data
      askQuestionsSession none rfl rfl⟩

/-- C5 counterexample: a free-form controller turn (state `ASK_QUESTIONS`,
message "I want to buy a 10kW solar system") with a raising product lookup
and a succeeding, non-empty salesman lookup does not return a well-formed
response with the salesman populated — the whole turn raises. -/
theorem c5_counterexample :
    process_message collabProductsFail [] "I want to buy a 10kW solar system".data
      (some ⟨.ask_questions, ⟨none, none⟩, none, none⟩) none = .error () := rfl

/-- One successful `process_message` turn preserves the identity invariant:
identity keys are both present in `ACTIVE_CHAT` and both absent elsewhere. -/
theorem process_message_preserves_identity
    (collab : Collab) (db : List UserRec) (msg : List Char)
    (profile : Option Profile) (s : Session) (out : TurnOutput)
    (hok : process_message collab db msg (some s) profile = .ok out)
    (hA : s.state = .active_chat → s.user_email.isSome ∧ s.user_name.isSome)
    (hN : s.state ≠ .active_chat → s.user_email = none ∧ s.user_name = none) :
    (out.session.state = .active_chat →
      out.session.user_email.isSome ∧ out.session.user_name.isSome) ∧
    (out.session.state ≠ .active_chat →
      out.session.user_email = none ∧ out.session.user_name = none) := by
  obtain ⟨st, td, ue, un⟩ := s
  cases st
  case start =>
    simp only [process_message, Option.getD_some] at hok
    injection hok with h
    subst h
    exact ⟨fun hcontr => (nomatch hcontr), fun _ => hN (fun h => nomatch h)⟩
  case waiting_option =>
    simp only [process_message, Option.getD_some] at hok
    split at hok
    all_goals try split at hok
    all_goals try split at hok
    all_goals
      (injection hok with h; subst h;
       exact ⟨fun hcontr => (nomatch hcontr), fun _ => hN (fun h => nomatch h)⟩)
  case ask_questions =>
    simp only [process_message, Option.getD_some] at hok
    split at hok
    · exact (Except.noConfusion hok)
    · injection hok with h
      subst h
      exact ⟨fun hcontr => (nomatch hcontr), fun _ => hN (fun h => nomatch h)⟩
  case create_account_email =>
    simp only [process_message, Option.getD_some] at hok
    split at hok
    · split at hok
      · injection hok with h
        subst h
        exact ⟨fun _ => ⟨rfl, rfl⟩, fun hcontr => absurd rfl hcontr⟩
      · injection hok with h
        subst h
        exact ⟨fun hcontr => (nomatch hcontr), fun _ => hN (fun h => nomatch h)⟩
    · injection hok with h
      subst h
      exact ⟨fun hcontr => (nomatch hcontr), fun _ => hN (fun h => nomatch h)⟩
  case create_account_name =>
    simp only [process_message, Option.getD_some] at hok
    split at hok <;>
      (injection hok with h; subst h;
       exact ⟨fun hcontr => (nomatch hcontr), fun _ => hN (fun h => nomatch h)⟩)
  case create_account_mobile =>
    simp only [process_message, Option.getD_some] at hok
    split at hok
    · split at hok
      · injection hok with h
        subst h
        exact ⟨fun _ => ⟨rfl, rfl⟩, fun hcontr => absurd rfl hcontr⟩
      all_goals exact (Except.noConfusion hok)
    · injection hok with h
      subst h
      exact ⟨fun hcontr => (nomatch hcontr), fun _ => hN (fun h => nomatch h)⟩
  case login_email =>
    simp only [process_message, Option.getD_some] at hok
    split at hok
    · split at hok
      · injection hok with h
        subst h
        exact ⟨fun _ => ⟨rfl, rfl⟩, fun hcontr => absurd rfl hcontr⟩
      · injection hok with h
        subst h
        exact ⟨fun hcontr => (nomatch hcontr), fun _ => hN (fun h => nomatch h)⟩
    · injection hok with h
      subst h
      exact ⟨fun hcontr => (nomatch hcontr), fun _ => hN (fun h => nomatch h)⟩
  case active_chat =>
    simp only [process_message, Option.getD_some] at hok
    split at hok
    · exact (Except.noConfusion hok)
    · injection hok with h
      subst h
      exact ⟨fun _ => hA rfl, fun hcontr => absurd rfl hcontr⟩

/-- C1: in every session reachable from a fresh session by repeated
`process_message` turns, the identity keys `user_email` / `user_name` are
both present when the state is `ACTIVE_CHAT` and both absent in every other
state. -/
theorem c1_identity_iff_active_chat :
    ∀ s : Session, ReachableSession s →
      (s.state = .active_chat → s.user_email.isSome ∧ s.user_name.isSome) ∧
      (s.state ≠ .active_chat → s.user_email = none ∧ s.user_name = none) := by
  intro s hs
  induction hs with
  | init collab db msg profile out hok =>
    exact process_message_preserves_identity collab db msg profile freshSession out hok
      (fun h => absurd h (by decide)) (fun _ => ⟨rfl, rfl⟩)
  | step s' collab db msg profile out _ hok ih =>
    exact process_message_preserves_identity collab db msg profile s' out hok ih.1 ih.2

/-- Witness for C1 at the session reached after the first turn ("hello" on a
fresh session): state `WAITING_OPTION` with both identity keys absent. -/
theorem c1_witness :
    ((Session.mk .waiting_option ⟨none, none⟩ none none).state = ChatState.active_chat →
      (Session.mk .waiting_option ⟨none, none⟩ none none).user_email.isSome ∧
      (Session.mk .waiting_option ⟨none, none⟩ none none).user_name.isSome) ∧
    ((Session.mk .waiting_option ⟨none, none⟩ none none).state ≠ ChatState.active_chat →
      (Session.mk .waiting_option ⟨none, none⟩ none none).user_email = none ∧
      (Session.mk .waiting_option ⟨none, none⟩ none none).user_name = none) :=
  c1_identity_iff_active_chat _
    (ReachableSession.init collab0 [] "hello".data none
      ⟨menu_message, emptyRecommends, option_next_steps,
       ⟨.waiting_option, ⟨none, none⟩, none, none⟩, [], [], [], none⟩ rfl)

/-- Witness for C10 at the concrete unknown category "weird". -/
theorem c10_witness :
    "weird".data ∉ ["common".data, "employees".data, "products".data, "salesman".data] ∧
    (get_category_info "weird".data = commonConfig ∧
     should_fetch_data "weird".data = false ∧
     get_data_sources "weird".data = [] ∧
     get_max_recommendations "weird".data = 0) :=
  ⟨by decide, c10_unknown_category_common_policy "weird".data (by decide)⟩

end Metro
